import Mathlib

/-!
DishDecode — verification of the upload → analyze → persist core.

Shallow embedding of the two API route handlers of the DishDecode
repository (`app/api/analyze/route.ts` and `app/api/upload/route.ts`)
and proofs about them.

Modelling conventions:

* JavaScript numbers that the handlers compare, clamp or default are
  modelled as rationals (`ℚ`).  The values flowing into the clamp come
  from `JSON.parse`, which never produces `NaN` (JSON has no `NaN`
  literal), so total ordered arithmetic is faithful.
* A JS value that may be `undefined`/missing is an `Option`.
* External effects (session lookup, request-body parse, image fetch,
  model invocation, database insert, S3 calls) are inputs of the
  handler: an environment record holds each step's outcome, and the
  handler is a pure function of the environment that mirrors the
  route's control flow.  Effect calls the handler issues (database
  inserts, S3 writes) are collected in the output so that "no write
  happened" is a statement about the output.
* The client-supplied file name in the upload route is modelled as a
  `List Char`, so that `name.split(".").pop()` becomes a structurally
  recursive function we can reason about.
-/

namespace DishDecode

/-- One entry of the `ingredients` array of the model's reply
(`{name, quantity, calories?}` in `analyze/route.ts`). -/
structure Ingredient where
  name : String
  quantity : String
  calories : Option ℚ
deriving Repr, DecidableEq

/-- The `macros` object of `AnalysisResult` in `analyze/route.ts`:
six optional gram counts. -/
structure Macros where
  protein : Option ℚ
  carbs : Option ℚ
  fiber : Option ℚ
  fat : Option ℚ
  saturated_fat : Option ℚ
  unsaturated_fat : Option ℚ
deriving Repr, DecidableEq

/-- The `AnalysisResult` interface of `analyze/route.ts`:
`contains_food` is the single required field, everything else is
optional (`Option`). -/
structure AnalysisResult where
  contains_food : Bool
  dish_name : Option String := none
  cuisine : Option String := none
  serving_size : Option String := none
  cooking_method : Option String := none
  ingredients : Option (List Ingredient) := none
  portion_size : Option String := none
  total_calories : Option ℚ := none
  macros : Option Macros := none
  portion_comparison : Option String := none
  allergens : Option (List String) := none
  confidence_score : Option ℚ := none
  error : Option String := none
deriving Repr, DecidableEq

/-- JavaScript `a || b` for an optional string `a`: the empty string is
falsy, so both `undefined` and `""` fall back to the default. -/
def jsOrString (o : Option String) (d : String) : String :=
  match o with
  | some s => if s = "" then d else s
  | none => d

/-- JS `Math.max(0, Math.min(1, q))` from the `confidence_score`
normalization in `analyze/route.ts`. -/
def clamp01 (q : ℚ) : ℚ := max 0 (min 1 q)

/-- The `confidence_score` expression of Step 6 of `analyze/route.ts`:
`typeof cs === "number" ? Math.max(0, Math.min(1, cs)) :
contains_food ? 0.7 : 0.1`.  (`JSON.parse` never yields `NaN`, so a
supplied number is clamped; a missing or non-numeric value takes the
default.) -/
def defaultedConfidence (contains_food : Bool) (o : Option ℚ) : ℚ :=
  match o with
  | some q => clamp01 q
  | none => if contains_food then (7 : ℚ)/10 else (1 : ℚ)/10

/-- Step 6 of `analyze/route.ts`: the `finalResult` object literal.
Field by field:

* `dish_name`, `cuisine`, `serving_size` use JS `||` with string
  defaults (`"Unknown Dish"`/`"N/A"`, `"Unknown"`, `"N/A"`);
* `cooking_method`, `portion_size`, `total_calories`,
  `portion_comparison` and every `macros` subfield use `?? undefined`,
  i.e. pass through unchanged;
* `ingredients` and `allergens` use `|| []` (a JS array is always
  truthy, so a present empty list is kept);
* `confidence_score` is clamped into `[0,1]` when the model supplied a
  number and otherwise defaults on `contains_food`;
* the literal has no `error` key, so `error` is absent in the result. -/
def normalize (r : AnalysisResult) : AnalysisResult where
  contains_food := r.contains_food
  dish_name :=
    some (jsOrString r.dish_name (if r.contains_food then "Unknown Dish" else "N/A"))
  cuisine := some (jsOrString r.cuisine "Unknown")
  serving_size := some (jsOrString r.serving_size "N/A")
  cooking_method := r.cooking_method
  ingredients := some (r.ingredients.getD [])
  portion_size := r.portion_size
  total_calories := r.total_calories
  macros := some
    { protein := r.macros.bind Macros.protein
      carbs := r.macros.bind Macros.carbs
      fiber := r.macros.bind Macros.fiber
      fat := r.macros.bind Macros.fat
      saturated_fat := r.macros.bind Macros.saturated_fat
      unsaturated_fat := r.macros.bind Macros.unsaturated_fat }
  portion_comparison := r.portion_comparison
  allergens := some (r.allergens.getD [])
  confidence_score :=
    some (defaultedConfidence r.contains_food r.confidence_score)
  error := none

/-- A Supabase session, reduced to the one field the routes use
(`session.user.id`). -/
structure Session where
  user_id : String
deriving Repr, DecidableEq

/-- The image data fetched in Step 3 of `analyze/route.ts`
(`mimeType` and the base64-encoded bytes of Step 4). -/
structure FetchedImage where
  mimeType : String
  base64Data : String
deriving Repr, DecidableEq

/-- One row submitted to `supabase.from("food_analyses").insert` in
Step 7 of `analyze/route.ts` (the `insertData` object). -/
structure InsertData where
  user_id : String
  image_url : String
  analysis_result : AnalysisResult
deriving Repr, DecidableEq

/-- Environment of one `POST /api/analyze` invocation: the outcome of
each external interaction the handler performs, in the order the code
performs them.

* `modelAvailable` — whether the module-level Gemini `model`/`genAI`
  handles were initialized at process start (Step 0 checks them);
* `session` — `supabase.auth.getSession()`: `.error msg` is a
  `sessionError`, `.ok none` is no session, `.ok (some s)` a session;
* `bodyImageUrl` — Step 2: `.ok url` when `request.json()` succeeded
  and `body.imageUrl` is a string, `.error msg` when parsing threw or
  `imageUrl` was missing/not a string;
* `fetchResult` — Step 3: `.ok img` when the bounded fetch returned a
  2xx image, `.error msg` for non-ok status, non-image content type,
  timeout or fetch exception (msg is the computed error message);
* `geminiResult` — Step 5 as a whole: `.ok r` when the model call
  returned a candidate whose text parsed to JSON with a boolean
  `contains_food` (the validated reply `analysisResult`), `.error msg`
  when the call, parse or validation threw (`geminiError.message`);
* `dbError` — Step 7: the `dbError` returned by the insert, if any. -/
structure AnalyzeEnv where
  modelAvailable : Bool
  session : Except String (Option Session)
  bodyImageUrl : Except String String
  fetchResult : Except String FetchedImage
  geminiResult : Except String AnalysisResult
  dbError : Option String
deriving Repr

/-- Observable outcome of one `POST /api/analyze` invocation: the HTTP
status and JSON body of the response, the rows the handler submitted to
the `food_analyses` insert, the rows the database actually stored
(insert calls minus failed ones), and whether the handler consulted the
Session Guard (`supabase.auth.getSession`). -/
structure AnalyzeOutput where
  status : Nat
  body : AnalysisResult
  insertCalls : List InsertData
  persisted : List InsertData
  sessionConsulted : Bool
deriving Repr, DecidableEq

/-- An error-response body of `analyze/route.ts`: a JSON object with
`contains_food:false` and an `error` string (all other fields absent). -/
def errorResponseBody (msg : String) : AnalysisResult :=
  { contains_food := false, error := some msg }

/-- JS `geminiError.message || "Unknown AI error"` from the Step 5
catch block. -/
def jsOrUnknownAIError (msg : String) : String :=
  if msg = "" then "Unknown AI error" else msg

/-- The `POST` handler of `app/api/analyze/route.ts` as a function of
its environment, mirroring the route's control flow:

* Step 0 — `!model || !genAI` → 503, before any other work;
* Step 1 — `getSession` error → 401, no session → 401 `"Unauthorized"`;
* Step 2 — body parse / `imageUrl` failure → 400;
* Step 3 — image fetch failure → 400;
* Step 5 — Gemini call/parse/validation failure → 500 with
  `dish_name:"Analysis Failed"`;
* Step 6 — `finalResult := normalize analysisResult`;
* Step 7 — insert into `food_analyses` only when
  `finalResult.contains_food`; a `dbError` is only logged;
* Step 8 — return `finalResult` with status 200. -/
def analyzePOST (env : AnalyzeEnv) : AnalyzeOutput :=
  if ¬ env.modelAvailable then
    { status := 503
      body := errorResponseBody
        "Server configuration error: AI analysis service is unavailable."
      insertCalls := [], persisted := [], sessionConsulted := false }
  else
    match env.session with
    | .error _details =>
      { status := 401, body := errorResponseBody "Authentication failed"
        insertCalls := [], persisted := [], sessionConsulted := true }
    | .ok none =>
      { status := 401, body := errorResponseBody "Unauthorized"
        insertCalls := [], persisted := [], sessionConsulted := true }
    | .ok (some session) =>
      match env.bodyImageUrl with
      | .error msg =>
        { status := 400
          body := errorResponseBody ("Invalid request body: " ++ msg)
          insertCalls := [], persisted := [], sessionConsulted := true }
      | .ok imageUrl =>
        match env.fetchResult with
        | .error msg =>
          { status := 400, body := errorResponseBody msg
            insertCalls := [], persisted := [], sessionConsulted := true }
        | .ok _img =>
          match env.geminiResult with
          | .error msg =>
            { status := 500
              body :=
                { contains_food := false
                  dish_name := some "Analysis Failed"
                  error := some ("Could not process AI response: " ++
                    jsOrUnknownAIError msg) }
              insertCalls := [], persisted := [], sessionConsulted := true }
          | .ok analysisResult =>
            let finalResult := normalize analysisResult
            let calls : List InsertData :=
              if finalResult.contains_food then
                [{ user_id := session.user_id
                   image_url := imageUrl
                   analysis_result := finalResult }]
              else []
            { status := 200
              body := finalResult
              insertCalls := calls
              persisted := if env.dbError.isNone then calls else []
              sessionConsulted := true }

/-- JavaScript `String.prototype.split` with a one-character separator,
over a file name modelled as a character list.  As in JS,
`split` of the empty string is `[""]`, a trailing separator yields a
trailing empty segment, and the result is never empty. -/
def splitOnChar (c : Char) : List Char → List (List Char)
  | [] => [[]]
  | x :: xs =>
    match splitOnChar c xs with
    | [] => [[]]
    | seg :: segs =>
      if x = c then [] :: seg :: segs else (x :: seg) :: segs

/-- JS `name.split(".").pop()` from Step 4 of `upload/route.ts`,
generalized over the separator: the last segment of the split (the
split is never empty, so JS `pop` always returns a string). -/
def jsSplitPop (c : Char) (l : List Char) : List Char :=
  ((splitOnChar c l).getLast?).getD []

/-- Request-scoped configuration constants of `upload/route.ts`. -/
def maxFileSizeMB : Nat := 5

/-- The limit `maxSizeBytes = maxFileSizeMB * 1024 * 1024` from Step 3 of
`upload/route.ts`. -/
def maxSizeBytes : Nat := maxFileSizeMB * 1024 * 1024

/-- The list `allowedMimeTypes` from `upload/route.ts`. -/
def allowedMimeTypes : List String :=
  ["image/jpeg", "image/png", "image/webp", "image/gif"]

/-- The constant `signedUrlExpireSeconds = 60 * 60` from `upload/route.ts`. -/
def signedUrlExpireSeconds : Nat := 60 * 60

/-- The `File` pulled out of the form data in `upload/route.ts`:
the fields the handler reads (`name`, `size`, `type`).  The name is a
character list so that `split`/`pop` is structural. -/
structure UploadFile where
  name : List Char
  size : Nat
  type : String
deriving Repr, DecidableEq

/-- One `s3.upload` call issued by the handler: the `Key` and
`ContentType` of its params (the body bytes are not modelled; only
which writes happen, under which key and type, matters here). -/
structure S3Write where
  key : List Char
  contentType : String
deriving Repr, DecidableEq

/-- Environment of one `POST /api/upload` invocation:

* `session` — as in `AnalyzeEnv`;
* `formFile` — Step 2: `.error msg` when `request.formData()` threw,
  `.ok none` when the `file` field was absent, `.ok (some f)` otherwise;
* `uuid` — the value `uuidv4()` returns in Step 4;
* `awsConfigured` — Step 5: whether `AWS_ACCESS_KEY_ID`,
  `AWS_SECRET_ACCESS_KEY` and `AWS_REGION` are all set;
* `s3UploadError` — Step 6: the error thrown by `s3.upload`, if any;
* `signError`/`signedUrl` — Step 7: outcome of `getSignedUrlPromise`. -/
structure UploadEnv where
  session : Except String (Option Session)
  formFile : Except String (Option UploadFile)
  uuid : List Char
  awsConfigured : Bool
  s3UploadError : Option String
  signError : Option String
  signedUrl : String
deriving Repr

/-- Observable outcome of one `POST /api/upload` invocation: HTTP
status, the `success` flag of the JSON body, the `error`/`url`/`s3_key`
fields of the body when present, and the list of `s3.upload` calls the
handler issued. -/
structure UploadOutput where
  status : Nat
  success : Bool
  errorMsg : Option String
  url : Option String
  s3_key : Option (List Char)
  s3Calls : List S3Write
deriving Repr, DecidableEq

/-- An error response of `upload/route.ts` that was returned before any
S3 interaction. -/
def uploadErrorOutput (status : Nat) (msg : String) : UploadOutput :=
  { status := status, success := false, errorMsg := some msg
    url := none, s3_key := none, s3Calls := [] }

/-- The `POST` handler of `app/api/upload/route.ts` as a function of
its environment, mirroring the route's control flow:

* Step 1 — session error → 401, no session → 401 `"Unauthorized"`;
* Step 2 — form-data parse failure → 400, missing `file` → 400;
* Step 3 — `file.size > maxSizeBytes` → 413, then disallowed
  `file.type` → 415; both before any S3 interaction;
* Step 4 — `fileExt := file.name.split(".").pop()`,
  `fileName := uuid ++ "." ++ fileExt`;
* Step 5 — missing AWS credentials/region → 500 (still no S3 call);
* Step 6 — `s3.upload` with `Key := fileName`,
  `ContentType := file.type`; a thrown error → 500;
* Step 7/8 — signing failure → 500, else 200 with the signed URL and
  the key. -/
def uploadPOST (env : UploadEnv) : UploadOutput :=
  match env.session with
  | .error _details => uploadErrorOutput 401 "Authentication failed"
  | .ok none => uploadErrorOutput 401 "Unauthorized"
  | .ok (some _session) =>
    match env.formFile with
    | .error msg =>
      uploadErrorOutput 400 ("Failed to parse form data: " ++ msg)
    | .ok none => uploadErrorOutput 400 "No file provided"
    | .ok (some file) =>
      if file.size > maxSizeBytes then
        uploadErrorOutput 413 "File too large (max 5MB)"
      else if ¬ allowedMimeTypes.contains file.type then
        uploadErrorOutput 415 "Invalid file type."
      else
        let fileExt := jsSplitPop '.' file.name
        let fileName := env.uuid ++ '.' :: fileExt
        if ¬ env.awsConfigured then
          uploadErrorOutput 500 "Server configuration error: AWS details missing"
        else
          let write : S3Write := { key := fileName, contentType := file.type }
          match env.s3UploadError with
          | some msg =>
            { status := 500, success := false
              errorMsg := some ("S3 upload failed: " ++ msg)
              url := none, s3_key := none, s3Calls := [write] }
          | none =>
            match env.signError with
            | some msg =>
              { status := 500, success := false
                errorMsg := some
                  ("Failed to create access URL after upload: " ++ msg)
                url := none, s3_key := none, s3Calls := [write] }
            | none =>
              { status := 200, success := true, errorMsg := none
                url := some env.signedUrl, s3_key := some fileName
                s3Calls := [write] }

/-! Helper lemmas -/

theorem splitOnChar_cons_eq (c x : Char) (xs seg : List Char)
    (segs : List (List Char)) (hs : splitOnChar c xs = seg :: segs) :
    splitOnChar c (x :: xs) =
      if x = c then [] :: seg :: segs else (x :: seg) :: segs := by
  simp only [splitOnChar, hs]

theorem splitOnChar_ne_nil (c : Char) (l : List Char) :
    splitOnChar c l ≠ [] := by
  induction l with
  | nil => simp [splitOnChar]
  | cons x xs ih =>
    cases hs : splitOnChar c xs with
    | nil => exact absurd hs ih
    | cons seg segs =>
      rw [splitOnChar_cons_eq c x xs seg segs hs]
      split <;> simp

theorem splitOnChar_of_not_mem (c : Char) (l : List Char)
    (h : c ∉ l) : splitOnChar c l = [l] := by
  induction l with
  | nil => rfl
  | cons x xs ih =>
    simp only [List.mem_cons, not_or] at h
    rw [splitOnChar_cons_eq c x xs xs [] (ih h.2),
      if_neg (fun hx => h.1 hx.symm)]

theorem two_le_splitOnChar_length (c : Char) (l : List Char)
    (h : c ∈ l) : 2 ≤ (splitOnChar c l).length := by
  induction l with
  | nil => cases h
  | cons x xs ih =>
    cases hs : splitOnChar c xs with
    | nil => exact absurd hs (splitOnChar_ne_nil c xs)
    | cons seg segs =>
      rw [splitOnChar_cons_eq c x xs seg segs hs]
      by_cases hx : x = c
      · simp [hx]
      · rw [if_neg hx]
        rcases List.mem_cons.mp h with h' | h'
        · exact absurd h'.symm hx
        · have h2 := ih h'
          rw [hs] at h2
          simpa using h2

theorem splitOnChar_append_getLast (c : Char) (l₁ l₂ : List Char) :
    (splitOnChar c (l₁ ++ c :: l₂)).getLast? =
      (splitOnChar c l₂).getLast? := by
  induction l₁ with
  | nil =>
    cases hs : splitOnChar c l₂ with
    | nil => exact absurd hs (splitOnChar_ne_nil c l₂)
    | cons seg segs =>
      rw [List.nil_append, splitOnChar_cons_eq c c l₂ seg segs hs,
        if_pos rfl, List.getLast?_cons_cons]
  | cons x xs ih =>
    cases hs : splitOnChar c (xs ++ c :: l₂) with
    | nil => exact absurd hs (splitOnChar_ne_nil c _)
    | cons seg segs =>
      have hlen : 2 ≤ (seg :: segs).length := by
        rw [← hs]
        exact two_le_splitOnChar_length c _ (by simp)
      rw [hs] at ih
      rw [List.cons_append, splitOnChar_cons_eq c x (xs ++ c :: l₂) seg segs hs]
      cases segs with
      | nil => simp at hlen
      | cons a as =>
        by_cases hx : x = c
        · rw [if_pos hx, List.getLast?_cons_cons, ← ih]
        · rw [if_neg hx, List.getLast?_cons_cons, ← ih,
            List.getLast?_cons_cons]

theorem jsSplitPop_of_not_mem (c : Char) (l : List Char) (h : c ∉ l) :
    jsSplitPop c l = l := by
  simp [jsSplitPop, splitOnChar_of_not_mem c l h]

theorem jsSplitPop_append (c : Char) (l₁ l₂ : List Char) :
    jsSplitPop c (l₁ ++ c :: l₂) = jsSplitPop c l₂ := by
  simp [jsSplitPop, splitOnChar_append_getLast]

theorem jsSplitPop_last_segment (c : Char) (l₁ l₂ : List Char)
    (h : c ∉ l₂) : jsSplitPop c (l₁ ++ c :: l₂) = l₂ := by
  rw [jsSplitPop_append, jsSplitPop_of_not_mem c l₂ h]

theorem clamp01_nonneg (q : ℚ) : 0 ≤ clamp01 q := le_max_left 0 _

theorem clamp01_le_one (q : ℚ) : clamp01 q ≤ 1 := by
  simp only [clamp01]
  exact max_le (by norm_num) (min_le_left 1 q)

theorem clamp01_of_mem (q : ℚ) (h0 : 0 ≤ q) (h1 : q ≤ 1) :
    clamp01 q = q := by
  simp [clamp01, min_eq_right h1, max_eq_right h0]

theorem clamp01_idem (q : ℚ) : clamp01 (clamp01 q) = clamp01 q :=
  clamp01_of_mem _ (clamp01_nonneg q) (clamp01_le_one q)

theorem defaultedConfidence_some (b : Bool) (q : ℚ) :
    defaultedConfidence b (some q) = clamp01 q := rfl

theorem defaultedConfidence_none (b : Bool) :
    defaultedConfidence b none = if b then (7 : ℚ)/10 else (1 : ℚ)/10 := rfl

theorem defaultedConfidence_nonneg (b : Bool) (o : Option ℚ) :
    0 ≤ defaultedConfidence b o := by
  cases o with
  | some q => exact clamp01_nonneg q
  | none => rw [defaultedConfidence_none]; split <;> norm_num

theorem defaultedConfidence_le_one (b : Bool) (o : Option ℚ) :
    defaultedConfidence b o ≤ 1 := by
  cases o with
  | some q => exact clamp01_le_one q
  | none => rw [defaultedConfidence_none]; split <;> norm_num

theorem clamp01_defaultedConfidence (b : Bool) (o : Option ℚ) :
    clamp01 (defaultedConfidence b o) = defaultedConfidence b o :=
  clamp01_of_mem _ (defaultedConfidence_nonneg b o)
    (defaultedConfidence_le_one b o)

theorem jsOrString_ne_empty (o : Option String) (d : String)
    (hd : d ≠ "") : jsOrString o d ≠ "" := by
  cases o with
  | none => exact hd
  | some s =>
    simp only [jsOrString]
    split
    · exact hd
    · assumption

theorem jsOrString_idem (o : Option String) (d : String)
    (hd : d ≠ "") : jsOrString (some (jsOrString o d)) d = jsOrString o d := by
  rw [show jsOrString (some (jsOrString o d)) d =
        if jsOrString o d = "" then d else jsOrString o d from rfl,
    if_neg (jsOrString_ne_empty o d hd)]

/-! Claim theorems -/

/-- A model reply that detected food but supplied no optional field. -/
def bareFoodReply : AnalysisResult := { contains_food := true }

/-- C1 counterexample: normalizing a validated reply that set only
`contains_food` leaves `cooking_method`, `portion_size`,
`total_calories`, `portion_comparison` and the `macros` subfields
absent (the source passes them through with `?? undefined`), so not
every unset optional field of the returned object gets an explicit
default. -/
theorem normalize_leaves_fields_absent :
    (normalize bareFoodReply).cooking_method = none ∧
    (normalize bareFoodReply).portion_size = none ∧
    (normalize bareFoodReply).total_calories = none ∧
    (normalize bareFoodReply).portion_comparison = none ∧
    (normalize bareFoodReply).macros = some
      { protein := none, carbs := none, fiber := none, fat := none
        saturated_fat := none, unsaturated_fat := none } := by
  refine ⟨rfl, rfl, rfl, rfl, rfl⟩

/-- C1 (amended): normalization defaults exactly the fields
`dish_name`, `cuisine`, `serving_size` (strings), `ingredients`,
`allergens` (lists) and `confidence_score`, and always materializes the
`macros` object; `cooking_method`, `portion_size`, `total_calories` and
`portion_comparison` are passed through unchanged and so may remain
absent, and `error` is dropped. -/
theorem normalize_defaults_some_fields (r : AnalysisResult) :
    ((normalize r).dish_name).isSome ∧
    ((normalize r).cuisine).isSome ∧
    ((normalize r).serving_size).isSome ∧
    ((normalize r).ingredients).isSome ∧
    ((normalize r).allergens).isSome ∧
    ((normalize r).confidence_score).isSome ∧
    ((normalize r).macros).isSome ∧
    (normalize r).cooking_method = r.cooking_method ∧
    (normalize r).portion_size = r.portion_size ∧
    (normalize r).total_calories = r.total_calories ∧
    (normalize r).portion_comparison = r.portion_comparison ∧
    (normalize r).error = none := by
  simp [normalize]

/-- C5: the normalized `confidence_score` is the model's number
clamped into `[0,1]` when one was supplied, else `0.7`/`0.1` depending
on `contains_food`, and in every case it is a present value in
`[0,1]`. -/
theorem normalize_confidence_score (r : AnalysisResult) :
    (∀ q, r.confidence_score = some q →
      (normalize r).confidence_score = some (clamp01 q)) ∧
    (r.confidence_score = none →
      (normalize r).confidence_score =
        some (if r.contains_food then (7 : ℚ)/10 else (1 : ℚ)/10)) ∧
    (∃ v, (normalize r).confidence_score = some v ∧ 0 ≤ v ∧ v ≤ 1) := by
  refine ⟨?_, ?_, ?_⟩
  · intro q hq
    simp [normalize, hq, defaultedConfidence_some]
  · intro hq
    simp [normalize, hq, defaultedConfidence_none]
  · exact ⟨defaultedConfidence r.contains_food r.confidence_score, rfl,
      defaultedConfidence_nonneg _ _, defaultedConfidence_le_one _ _⟩

/-- A model reply whose confidence lies above 1, for exercising the
clamp. -/
def overConfidentReply : AnalysisResult :=
  { contains_food := true, confidence_score := some ((3 : ℚ)/2) }

/-- C5 witness: a reply with `confidence_score = 3/2` is clamped to
`1` by normalization. -/
theorem normalize_confidence_score_witness :
    (normalize overConfidentReply).confidence_score = some 1 := by
  have h := (normalize_confidence_score overConfidentReply).1 ((3 : ℚ)/2) rfl
  rw [h]
  norm_num [clamp01]

/-- C7: normalization is idempotent — normalizing an already-normalized
result changes nothing, because present strings are nonempty after the
first pass, present lists and numbers are kept, and a clamped
confidence re-clamps to itself. -/
theorem normalize_idempotent (r : AnalysisResult) :
    normalize (normalize r) = normalize r := by
  have hdn : (if r.contains_food then "Unknown Dish" else "N/A") ≠ "" := by
    split <;> decide
  have h1 := jsOrString_idem r.dish_name
    (if r.contains_food then "Unknown Dish" else "N/A") hdn
  have h2 := jsOrString_idem r.cuisine "Unknown" (by decide)
  have h3 := jsOrString_idem r.serving_size "N/A" (by decide)
  simp [normalize, h1, h2, h3, defaultedConfidence_some,
    clamp01_defaultedConfidence]

/-- C2: on a run that reaches the validated model reply `r`, the
handler submits no `food_analyses` insert when `r.contains_food` is
false, and exactly one insert — carrying the normalized result, whose
`confidence_score` is a value in `[0,1]` — when it is true; when the
database reports no error that one row is stored. -/
theorem analyze_persistence (env : AnalyzeEnv) (sess : Session)
    (url : String) (img : FetchedImage) (r : AnalysisResult)
    (hm : env.modelAvailable = true)
    (hs : env.session = .ok (some sess))
    (hu : env.bodyImageUrl = .ok url)
    (hf : env.fetchResult = .ok img)
    (hg : env.geminiResult = .ok r) :
    (r.contains_food = false → (analyzePOST env).insertCalls = [] ∧
      (analyzePOST env).persisted = []) ∧
    (r.contains_food = true →
      (analyzePOST env).insertCalls =
        [{ user_id := sess.user_id, image_url := url
           analysis_result := normalize r }] ∧
      (∃ q, (normalize r).confidence_score = some q ∧ 0 ≤ q ∧ q ≤ 1) ∧
      (env.dbError = none →
        (analyzePOST env).persisted = (analyzePOST env).insertCalls)) := by
  constructor
  · intro hcf
    simp [analyzePOST, hm, hs, hu, hf, hg, normalize, hcf]
  · intro hcf
    refine ⟨?_, ?_, ?_⟩
    · simp [analyzePOST, hm, hs, hu, hf, hg, normalize, hcf]
    · exact ⟨defaultedConfidence r.contains_food r.confidence_score, rfl,
        defaultedConfidence_nonneg _ _, defaultedConfidence_le_one _ _⟩
    · intro hdb
      simp [analyzePOST, hm, hs, hu, hf, hg, hdb]

/-- A run whose validated reply detects food, for exercising the
persistence path. -/
def foodRunEnv : AnalyzeEnv :=
  { modelAvailable := true
    session := .ok (some { user_id := "user-1" })
    bodyImageUrl := .ok "https://bucket.s3.example/key.jpg"
    fetchResult := .ok { mimeType := "image/jpeg", base64Data := "AAAA" }
    geminiResult := .ok { contains_food := true }
    dbError := none }

/-- C2 witness: on a concrete food-detecting run the handler submits
exactly one insert and it is stored. -/
theorem analyze_persistence_witness :
    (analyzePOST foodRunEnv).insertCalls =
      [{ user_id := "user-1", image_url := "https://bucket.s3.example/key.jpg"
         analysis_result := normalize { contains_food := true } }] ∧
    (∃ q, (normalize ({ contains_food := true } :
      AnalysisResult)).confidence_score = some q ∧ 0 ≤ q ∧ q ≤ 1) ∧
    (analyzePOST foodRunEnv).persisted = (analyzePOST foodRunEnv).insertCalls := by
  have h := (analyze_persistence foodRunEnv { user_id := "user-1" }
    "https://bucket.s3.example/key.jpg"
    { mimeType := "image/jpeg", base64Data := "AAAA" }
    { contains_food := true } rfl rfl rfl rfl rfl).2 rfl
  exact ⟨h.1, h.2.1, h.2.2 rfl⟩

/-- A request arriving while the Gemini model handle is not
initialized and carrying no session. -/
def noModelNoSessionEnv : AnalyzeEnv :=
  { modelAvailable := false
    session := .ok none
    bodyImageUrl := .error "unread"
    fetchResult := .error "unread"
    geminiResult := .error "unread"
    dbError := none }

/-- C3 counterexample: an unauthenticated request (Session Guard
yields no session) is answered with 503, not 401, when the model
client is uninitialized — Step 0 of `analyze/route.ts` runs before
authentication, so the claim's "regardless of any other server state"
fails. -/
theorem analyze_unauth_not_always_401 :
    noModelNoSessionEnv.session = .ok none ∧
    (analyzePOST noModelNoSessionEnv).status = 503 ∧
    (analyzePOST noModelNoSessionEnv).status ≠ 401 := by
  refine ⟨rfl, rfl, by decide⟩

/-- C3 (amended): provided the model client is initialized, a request
whose session lookup returns no session is rejected with 401 and the
body `error:"Unauthorized"`, and nothing is persisted. -/
theorem analyze_unauth_401 (env : AnalyzeEnv)
    (hm : env.modelAvailable = true)
    (hs : env.session = .ok none) :
    (analyzePOST env).status = 401 ∧
    (analyzePOST env).body.error = some "Unauthorized" ∧
    (analyzePOST env).insertCalls = [] := by
  simp [analyzePOST, hm, hs, errorResponseBody]

/-- An unauthenticated request with the model initialized. -/
def noSessionEnv : AnalyzeEnv :=
  { modelAvailable := true
    session := .ok none
    bodyImageUrl := .error "unread"
    fetchResult := .error "unread"
    geminiResult := .error "unread"
    dbError := none }

/-- C3 witness: the amended statement at a concrete environment. -/
theorem analyze_unauth_401_witness :
    (analyzePOST noSessionEnv).status = 401 ∧
    (analyzePOST noSessionEnv).body.error = some "Unauthorized" ∧
    (analyzePOST noSessionEnv).insertCalls = [] :=
  analyze_unauth_401 noSessionEnv rfl rfl

/-- C4: when the validated reply was normalized, a failing
`food_analyses` insert (`dbError = some e`) leaves the response
untouched: status 200 with the normalized result, identical to the
response of the same run with a healthy database. -/
theorem analyze_db_failure_keeps_success (env : AnalyzeEnv)
    (sess : Session) (url : String) (img : FetchedImage)
    (r : AnalysisResult) (e : String)
    (hm : env.modelAvailable = true)
    (hs : env.session = .ok (some sess))
    (hu : env.bodyImageUrl = .ok url)
    (hf : env.fetchResult = .ok img)
    (hg : env.geminiResult = .ok r)
    (_hd : env.dbError = some e) :
    (analyzePOST env).status = 200 ∧
    (analyzePOST env).body = normalize r ∧
    (analyzePOST env).status =
      (analyzePOST { env with dbError := none }).status ∧
    (analyzePOST env).body =
      (analyzePOST { env with dbError := none }).body := by
  refine ⟨?_, ?_, ?_, ?_⟩ <;>
    simp [analyzePOST, hm, hs, hu, hf, hg]

/-- A food-detecting run whose database insert fails. -/
def dbFailureEnv : AnalyzeEnv :=
  { foodRunEnv with dbError := some "connection reset" }

/-- C4 witness: on a concrete run with a failing insert the response
is still the 200 success response. -/
theorem analyze_db_failure_keeps_success_witness :
    (analyzePOST dbFailureEnv).status = 200 ∧
    (analyzePOST dbFailureEnv).body =
      normalize { contains_food := true } :=
  have h := analyze_db_failure_keeps_success dbFailureEnv
    { user_id := "user-1" } "https://bucket.s3.example/key.jpg"
    { mimeType := "image/jpeg", base64Data := "AAAA" }
    { contains_food := true } "connection reset" rfl rfl rfl rfl rfl rfl
  ⟨h.1, h.2.1⟩

/-- C6: a failure of the model invocation, reply parsing or reply
validation yields status 500 with `contains_food:false`,
`dish_name:"Analysis Failed"` and a nonempty `error` string, and no
insert is submitted. -/
theorem analyze_gemini_failure (env : AnalyzeEnv) (sess : Session)
    (url : String) (img : FetchedImage) (msg : String)
    (hm : env.modelAvailable = true)
    (hs : env.session = .ok (some sess))
    (hu : env.bodyImageUrl = .ok url)
    (hf : env.fetchResult = .ok img)
    (hg : env.geminiResult = .error msg) :
    (analyzePOST env).status = 500 ∧
    (analyzePOST env).body.contains_food = false ∧
    (analyzePOST env).body.dish_name = some "Analysis Failed" ∧
    (∃ e, (analyzePOST env).body.error = some e ∧ e ≠ "") ∧
    (analyzePOST env).insertCalls = [] ∧
    (analyzePOST env).persisted = [] := by
  refine ⟨?_, ?_, ?_, ?_, ?_, ?_⟩ <;>
    simp [analyzePOST, hm, hs, hu, hf, hg]
  intro h
  have hlen := congrArg String.length h
  simp [String.length_append] at hlen
  exact absurd hlen.1 (by decide)

/-- A run whose Gemini reply could not be parsed. -/
def geminiFailureEnv : AnalyzeEnv :=
  { modelAvailable := true
    session := .ok (some { user_id := "user-1" })
    bodyImageUrl := .ok "https://bucket.s3.example/key.jpg"
    fetchResult := .ok { mimeType := "image/jpeg", base64Data := "AAAA" }
    geminiResult := .error "Could not parse JSON."
    dbError := none }

/-- C6 witness: the failure response at a concrete environment. -/
theorem analyze_gemini_failure_witness :
    (analyzePOST geminiFailureEnv).status = 500 ∧
    (analyzePOST geminiFailureEnv).body.dish_name =
      some "Analysis Failed" ∧
    (analyzePOST geminiFailureEnv).insertCalls = [] :=
  have h := analyze_gemini_failure geminiFailureEnv
    { user_id := "user-1" } "https://bucket.s3.example/key.jpg"
    { mimeType := "image/jpeg", base64Data := "AAAA" }
    "Could not parse JSON." rfl rfl rfl rfl rfl
  ⟨h.1, h.2.2.1, h.2.2.2.2.1⟩

/-- C9: when the model client is uninitialized, every request — shown
for an arbitrary environment, so in particular for unauthenticated
ones — receives 503, and the Session Guard is never consulted. -/
theorem analyze_unavailable_model_503 (env : AnalyzeEnv)
    (hm : env.modelAvailable = false) :
    (analyzePOST env).status = 503 ∧
    (analyzePOST env).sessionConsulted = false ∧
    (analyzePOST env).insertCalls = [] := by
  simp [analyzePOST, hm, errorResponseBody]

/-- A request with the model uninitialized (and, for concreteness, no
session available either). -/
def unavailableModelEnv : AnalyzeEnv :=
  { modelAvailable := false
    session := .ok none
    bodyImageUrl := .ok "https://bucket.s3.example/key.jpg"
    fetchResult := .error "unread"
    geminiResult := .error "unread"
    dbError := none }

/-- C9 witness: the 503 short-circuit at a concrete environment. -/
theorem analyze_unavailable_model_503_witness :
    (analyzePOST unavailableModelEnv).status = 503 ∧
    (analyzePOST unavailableModelEnv).sessionConsulted = false ∧
    (analyzePOST unavailableModelEnv).insertCalls = [] :=
  analyze_unavailable_model_503 unavailableModelEnv rfl

/-- C8: an authenticated upload whose file exceeds the limit — which
is exactly 5 242 880 bytes — is rejected with 413 and no `s3.upload`
call is ever issued. -/
theorem upload_payload_too_large (env : UploadEnv) (sess : Session)
    (f : UploadFile)
    (hs : env.session = .ok (some sess))
    (hf : env.formFile = .ok (some f))
    (hsize : f.size > maxSizeBytes) :
    maxSizeBytes = 5242880 ∧
    (uploadPOST env).status = 413 ∧
    (uploadPOST env).success = false ∧
    (uploadPOST env).s3Calls = [] := by
  refine ⟨by decide, ?_, ?_, ?_⟩ <;>
    simp [uploadPOST, hs, hf, hsize, uploadErrorOutput]

/-- An authenticated upload of a 6 MiB JPEG. -/
def oversizedUploadEnv : UploadEnv :=
  { session := .ok (some { user_id := "user-1" })
    formFile := .ok (some
      { name := ['b', 'i', 'g', '.', 'j', 'p', 'g']
        size := 6291456, type := "image/jpeg" })
    uuid := ['u', '1']
    awsConfigured := true
    s3UploadError := none
    signError := none
    signedUrl := "https://bucket.s3.example/signed" }

/-- C8 witness: the oversized upload at a concrete environment. -/
theorem upload_payload_too_large_witness :
    (uploadPOST oversizedUploadEnv).status = 413 ∧
    (uploadPOST oversizedUploadEnv).s3Calls = [] :=
  have h := upload_payload_too_large oversizedUploadEnv
    { user_id := "user-1" }
    { name := ['b', 'i', 'g', '.', 'j', 'p', 'g']
      size := 6291456, type := "image/jpeg" }
    rfl rfl (by decide)
  ⟨h.2.1, h.2.2.2⟩

/-- C10: on an accepted upload the object key is the fresh UUID,
a dot, and `file.name.split(".").pop()`; that popped segment is the
part of the client-supplied name after its last dot (the whole name
when the name has no dot), and changing the validated content type
does not change the key. -/
theorem upload_object_key (env : UploadEnv) (sess : Session)
    (f : UploadFile)
    (hs : env.session = .ok (some sess))
    (hf : env.formFile = .ok (some f))
    (hsize : ¬ f.size > maxSizeBytes)
    (htype : allowedMimeTypes.contains f.type = true)
    (haws : env.awsConfigured = true)
    (hup : env.s3UploadError = none)
    (hsig : env.signError = none) :
    (uploadPOST env).s3_key =
      some (env.uuid ++ '.' :: jsSplitPop '.' f.name) ∧
    (uploadPOST env).s3Calls =
      [{ key := env.uuid ++ '.' :: jsSplitPop '.' f.name
         contentType := f.type }] ∧
    (∀ stem ext, f.name = stem ++ '.' :: ext → '.' ∉ ext →
      jsSplitPop '.' f.name = ext) ∧
    ('.' ∉ f.name → jsSplitPop '.' f.name = f.name) ∧
    (∀ t', allowedMimeTypes.contains t' = true →
      (uploadPOST { env with
        formFile := .ok (some { f with type := t' }) }).s3_key =
      (uploadPOST env).s3_key) := by
  have hmem : f.type ∈ allowedMimeTypes := by simpa using htype
  refine ⟨?_, ?_, ?_, ?_, ?_⟩
  · simp [uploadPOST, hs, hf, hsize, hmem, haws, hup, hsig]
  · simp [uploadPOST, hs, hf, hsize, hmem, haws, hup, hsig]
  · intro stem ext hname hext
    rw [hname]
    exact jsSplitPop_last_segment '.' stem ext hext
  · exact jsSplitPop_of_not_mem '.' f.name
  · intro t' ht'
    have hmem' : t' ∈ allowedMimeTypes := by simpa using ht'
    simp [uploadPOST, hs, hf, hsize, hmem, hmem', haws, hup, hsig]

/-- An accepted upload of a small PNG named `photo.final.png`. -/
def acceptedUploadEnv : UploadEnv :=
  { session := .ok (some { user_id := "user-1" })
    formFile := .ok (some
      { name := ['p', 'h', 'o', 't', 'o', '.', 'f', 'i', 'n', 'a', 'l',
          '.', 'p', 'n', 'g']
        size := 1024, type := "image/png" })
    uuid := ['u', '1']
    awsConfigured := true
    s3UploadError := none
    signError := none
    signedUrl := "https://bucket.s3.example/signed" }

/-- C10 witness: the accepted upload of `photo.final.png` gets the key
`u1.png`, and the same name uploaded as `image/webp` gets the same
key. -/
theorem upload_object_key_witness :
    (uploadPOST acceptedUploadEnv).s3_key =
      some ['u', '1', '.', 'p', 'n', 'g'] ∧
    (uploadPOST { acceptedUploadEnv with
      formFile := .ok (some
        { name := ['p', 'h', 'o', 't', 'o', '.', 'f', 'i', 'n', 'a', 'l',
            '.', 'p', 'n', 'g']
          size := 1024, type := "image/webp" }) }).s3_key =
      (uploadPOST acceptedUploadEnv).s3_key := by
  have h := upload_object_key acceptedUploadEnv { user_id := "user-1" }
    { name := ['p', 'h', 'o', 't', 'o', '.', 'f', 'i', 'n', 'a', 'l',
        '.', 'p', 'n', 'g']
      size := 1024, type := "image/png" }
    rfl rfl (by decide) (by decide) rfl rfl rfl
  refine ⟨?_, h.2.2.2.2 "image/webp" (by decide)⟩
  rw [h.1]
  decide

end DishDecode
